import Mathlib

set_option maxRecDepth 40000

/-!
Shallow embedding of `src/TinyG2/config_app.cpp`: the configuration table
shape, the registry index resolver, the unit-conversion helpers, the group
expansion engine, the uber-group handlers and the baud-rate setter of the
TinyG2 firmware, together with theorems checking the natural-language
specification of these components against the code.
-/

/-- Status codes returned by the embedded config operations (`stat_t`).
Only the codes the embedded functions actually return are modelled:
`STAT_OK`, `STAT_COMPLETE` and `STAT_INPUT_VALUE_UNSUPPORTED`. -/
inductive Stat where
  | ok
  | complete
  | inputValueUnsupported
  deriving DecidableEq, Repr

/-- Floating point values as carried in `nv->value`: a finite value modelled
as an exact rational, or one of the illegal IEEE values (NaN, +Inf, -Inf)
that `preprocess_float` tests for with `isnan`/`isinf`. -/
inductive FloatVal where
  | finite (q : ℚ)
  | nan
  | inf
  | neginf
  deriving DecidableEq, Repr

/-- Multiplication of a float value by a positive finite constant.  Both
conversion constants used by the source (25.4 and 1/25.4) are positive, so
NaN and the two infinities are absorbing and finite values multiply
exactly. -/
def FloatVal.mulPos : FloatVal → ℚ → FloatVal
  | .finite q, c => .finite (q * c)
  | .nan, _ => .nan
  | .inf, _ => .inf
  | .neginf, _ => .neginf

/-- Test mirroring `isnan((double)nv->value) || isinf((double)nv->value)` at
config_app.cpp:886. -/
def FloatVal.isIllegal : FloatVal → Bool
  | .finite _ => false
  | .nan => true
  | .inf => true
  | .neginf => true

/-- Modelled from the spec: the inch-to-millimeter constant `MM_PER_INCH`
(25.4) is defined in a header that is not under src; the spec calls it "the
inch-to-millimeter constant" and fixes its value through the 1.0 -> 25.4
test point. -/
def MM_PER_INCH : ℚ := 254 / 10

/-- Modelled from the spec: the millimeter-to-inch constant `INCHES_PER_MM`
(1/25.4) is defined in a header that is not under src. -/
def INCHES_PER_MM : ℚ := 10 / 254

/-- Active units mode as returned by `cm_get_units_mode(MODEL)`; the source
only compares the result against `INCHES`. -/
inductive UnitsMode where
  | inches
  | millimeters
  deriving DecidableEq, Repr

/-- Value type tags (`valuetype` field of `nvObj_t`), restricted to the tags
the embedded operations write. -/
inductive ValueType where
  | typeFloat
  | typeInt
  | typeNull
  deriving DecidableEq, Repr

/-- The Transient Value Object (`nvObj_t`), restricted to the fields the
embedded operations read or write. -/
structure NvObj where
  token : String
  value : FloatVal
  valuetype : ValueType
  precision : Nat
  deriving DecidableEq, Repr

/-- Embedding of `set_flu()` (config_app.cpp:869-878), the floating point set
with G20/G21 units conversion.  Arguments: the active units mode, the
descriptor's table `precision` word, and the incoming Transient Value
Object.  Returns the status, the updated object, and the value written to
the descriptor's backing storage (`*(float *)GET_TABLE_WORD(target)`). -/
def set_flu (units : UnitsMode) (tablePrecision : Nat) (nv : NvObj) :
    Stat × NvObj × FloatVal :=
  let v := if units = UnitsMode.inches then nv.value.mulPos MM_PER_INCH else nv.value
  (Stat.ok,
   { nv with value := v, valuetype := ValueType.typeFloat, precision := tablePrecision },
   v)

/-- Embedding of `preprocess_float()` (config_app.cpp:884-892).  `fConvert`
is the descriptor's `F_CONVERT` flag bit (`GET_TABLE_BYTE(flags) &
F_CONVERT`).  The descriptor's backing storage cell is threaded through to
express exactly what the function may write: the source body contains no
assignment to the target cell, only to `nv->value`. -/
def preprocess_float (fConvert : Bool) (units : UnitsMode) (nv : NvObj) (target : FloatVal) :
    NvObj × FloatVal :=
  if nv.value.isIllegal then (nv, target)
  else if fConvert then
    if units = UnitsMode.inches then ({ nv with value := nv.value.mulPos INCHES_PER_MM }, target)
    else (nv, target)
  else (nv, target)

/-- Embedding of `nv_group_is_prefixed()` (config_app.cpp:900-905): the two
`strcmp` exception cases "sr" and "sys" return false, everything else
returns true. -/
def nv_group_is_prefixed (group : String) : Bool :=
  if group = "sr" then false
  else if group = "sys" then false
  else true

/-- State written by `set_baud`: the two xio fields it assigns. -/
structure XioState where
  usb_baud_rate : Nat
  usb_baud_flag : Bool
  deriving DecidableEq, Repr

/-- The warning text queued by `nv_add_conditional_message` on the failure
path of `set_baud` (config_app.cpp:1092). -/
def baudWarning : String := "*** WARNING *** Unsupported baud rate specified"

/-- The `msg_baud` string table (config_app.cpp:1079-1086). -/
def msg_baud : List String := ["0", "9600", "19200", "38400", "57600", "115200", "230400"]

/-- The notice text built with `sprintf_P` on the success path of `set_baud`
(config_app.cpp:1098). -/
def baudNotice (baud : Nat) : String :=
  "*** NOTICE *** Resetting baud rate to " ++ msg_baud.getD baud ""

/-- Embedding of `set_baud()` (config_app.cpp:1088-1101).  `baud` is the
byte `(uint8_t)nv->value` obtained by truncating the incoming value; the
cast itself happens before the modelled body.  The state consists of the
xio fields written on success and the queue of conditional messages. -/
def set_baud (baud : Nat) (xio : XioState) (messages : List String) :
    Stat × XioState × List String :=
  if baud < 1 ∨ 6 < baud then
    (Stat.inputValueUnsupported, xio, messages ++ [baudWarning])
  else
    (Stat.ok, { usb_baud_rate := baud, usb_baud_flag := true }, messages ++ [baudNotice baud])

/-- Observable events of the group expansion engine: a reset of the
Transient Value Object list (`nv_reset_nv_list`) or the fetch-and-render of
one group (`nv_get_nvObj` followed by `nv_print_list`) for a given token. -/
inductive Ev where
  | reset
  | render (tok : String)
  deriving DecidableEq, Repr

/-- Embedding of `_do_group_list()` (config_app.cpp:922-937), fuelled by the
`NV_MAX_OBJECTS` loop bound (a config.h constant that is not under src, so
it is kept as a parameter).  Each iteration first checks the empty-string
sentinel (returning `STAT_COMPLETE`), then resets the object list and
fetches and renders the group named by the current token.  Falling out of
the loop after `fuel` iterations also returns `STAT_COMPLETE`.  Reading
past the end of the token array is undefined in C and is mapped to
`none`; every call site in the source passes a sentinel-terminated list. -/
def _do_group_list (fuel : Nat) (list : List String) : Option (List Ev × Stat) :=
  match fuel, list with
  | 0, _ => some ([], Stat.complete)
  | _ + 1, [] => none
  | f + 1, tok :: rest =>
    if tok = "" then some ([], Stat.complete)
    else
      match _do_group_list f rest with
      | none => none
      | some (tr, s) => some (Ev.reset :: Ev.render tok :: tr, s)

/-- The motor uber-group token list selected by the `#if MOTORS == k`
preprocessor cases in `_do_motors` (config_app.cpp:941-955), sentinel
included.  A build with MOTORS outside 2..6 defines no list and does not
compile; that unreachable case is mapped to the empty list. -/
def motorsList (motors : Nat) : List String :=
  match motors with
  | 2 => ["1", "2", ""]
  | 3 => ["1", "2", "3", ""]
  | 4 => ["1", "2", "3", "4", ""]
  | 5 => ["1", "2", "3", "4", "5", ""]
  | 6 => ["1", "2", "3", "4", "5", "6", ""]
  | _ => []

/-- The axis uber-group token list of `_do_axes` (config_app.cpp:961). -/
def axesList : List String := ["x", "y", "z", "a", "b", "c", ""]

/-- The offsets uber-group token list of `_do_offsets`
(config_app.cpp:967). -/
def offsetsList : List String :=
  ["g54", "g55", "g56", "g57", "g58", "g59", "g92", "g28", "g30", ""]

/-- The inputs uber-group token list of `_do_inputs`
(config_app.cpp:973-977), conditioned on `D_IN_CHANNELS`. -/
def inputsList (dInChannels : Nat) : List String :=
  if dInChannels < 9 then ["di1", "di2", "di3", "di4", "di5", "di6", "di7", "di8", ""]
  else ["di1", "di2", "di3", "di4", "di5", "di6", "di7", "di8", "di9", ""]

/-- Embedding of `_do_motors()` (config_app.cpp:939-957). -/
def _do_motors (motors fuel : Nat) : Option (List Ev × Stat) :=
  _do_group_list fuel (motorsList motors)

/-- Embedding of `_do_axes()` (config_app.cpp:959-963). -/
def _do_axes (fuel : Nat) : Option (List Ev × Stat) :=
  _do_group_list fuel axesList

/-- Embedding of `_do_offsets()` (config_app.cpp:965-969). -/
def _do_offsets (fuel : Nat) : Option (List Ev × Stat) :=
  _do_group_list fuel offsetsList

/-- Embedding of `_do_inputs()` (config_app.cpp:971-980). -/
def _do_inputs (dInChannels fuel : Nat) : Option (List Ev × Stat) :=
  _do_group_list fuel (inputsList dInChannels)

/-- Embedding of `_do_all()` (config_app.cpp:982-996).  The body renders the
"sys" group directly (strcpy, `get_grp`, `nv_print_list` - with no list
reset), then calls `_do_motors` and `_do_axes` (discarding their statuses),
then renders the "p1" group directly, and finally returns the result of
`_do_offsets`. -/
def _do_all (motors fuel : Nat) : Option (List Ev × Stat) :=
  match _do_motors motors fuel with
  | none => none
  | some (trM, _) =>
    match _do_axes fuel with
    | none => none
    | some (trA, _) =>
      match _do_offsets fuel with
      | none => none
      | some (trO, sO) =>
        some (Ev.render "sys" :: trM ++ trA ++ Ev.render "p1" :: trO, sO)

/-- The groups rendered by a run of the engine, in order. -/
def renderedGroups (r : Option (List Ev × Stat)) : Option (List String) :=
  r.map fun p =>
    p.1.filterMap fun e =>
      match e with
      | Ev.render t => some t
      | Ev.reset => none

/-- Definition following the spec's words for claim C1, to be compared with
the embedded `_do_all`: the "all" uber-group renders "sys" and "p1"
directly first, then exactly the motors, axes and offsets uber-groups in
that order. -/
def do_all_spec_order (motors : Nat) : List String :=
  ["sys", "p1"] ++ (motorsList motors).dropLast ++ axesList.dropLast ++ offsetsList.dropLast

/-- The group sequence `_do_all` actually renders (sentinels stripped from
the member lists). -/
def allGroupsRendered (motors : Nat) : List String :=
  ["sys"] ++ (motorsList motors).dropLast ++ axesList.dropLast ++ ["p1"] ++ offsetsList.dropLast

/-- Compile-time build configuration switches that change the shape of
`cfgArray`: `MOTORS`, `D_IN_CHANNELS`, `__USER_DATA`,
`__DIAGNOSTIC_PARAMETERS`, `__TEXT_MODE`, `__ARM` (versus `__AVR`) and
`__HELP_SCREENS`. -/
structure Build where
  motors : Nat
  dInChannels : Nat
  userData : Bool
  diagnostics : Bool
  textMode : Bool
  arm : Bool
  helpScreens : Bool
  deriving DecidableEq, Repr

/-- The single-valued region of the `cfgArray` table (config_app.cpp:116-681):
every entry before the status-report persistence block, as the ordered list
of its (group, token) pairs, with every `#if`-conditional section reproduced
as a conditional segment.  Commented-out source entries (cv, jogb, jogc, the
pwr block, bjd, cjd, spi) are omitted exactly as in the source. -/
def cfgArraySingles (b : Build) : List (String × String) :=
  -- sys header block
  [("sys", "fb"), ("sys", "fbs"), ("sys", "fv"), ("sys", "hp"), ("sys", "hv"), ("sys", "id")]
  -- dynamic model attributes
  ++ [("", "stat"), ("", "n"), ("", "line"), ("", "vel"), ("", "feed"), ("", "macs"),
      ("", "cycs"), ("", "mots"), ("", "hold"), ("", "unit"), ("", "coor"), ("", "momo"),
      ("", "plan"), ("", "path"), ("", "dist"), ("", "admo"), ("", "frmo"), ("", "tool"),
      ("", "g92e")]
  -- machine position, work position, work offset groups
  ++ [("mpo", "mpox"), ("mpo", "mpoy"), ("mpo", "mpoz"), ("mpo", "mpoa"), ("mpo", "mpob"),
      ("mpo", "mpoc")]
  ++ [("pos", "posx"), ("pos", "posy"), ("pos", "posz"), ("pos", "posa"), ("pos", "posb"),
      ("pos", "posc")]
  ++ [("ofs", "ofsx"), ("ofs", "ofsy"), ("ofs", "ofsz"), ("ofs", "ofsa"), ("ofs", "ofsb"),
      ("ofs", "ofsc")]
  -- homing, probing, jogging
  ++ [("hom", "home"), ("hom", "homx"), ("hom", "homy"), ("hom", "homz"), ("hom", "homa"),
      ("hom", "homb"), ("hom", "homc")]
  ++ [("prb", "prbe"), ("prb", "prbx"), ("prb", "prby"), ("prb", "prbz"), ("prb", "prba"),
      ("prb", "prbb"), ("prb", "prbc")]
  ++ [("jog", "jogx"), ("jog", "jogy"), ("jog", "jogz"), ("jog", "joga")]
  -- motor parameters; the 1pl-style power level entries are ARM only
  ++ ([("1", "1ma"), ("1", "1sa"), ("1", "1tr"), ("1", "1mi"), ("1", "1po"), ("1", "1pm")]
      ++ (if b.arm then [("1", "1pl")] else []))
  ++ (if 2 ≤ b.motors then
        [("2", "2ma"), ("2", "2sa"), ("2", "2tr"), ("2", "2mi"), ("2", "2po"), ("2", "2pm")]
        ++ (if b.arm then [("2", "2pl")] else [])
      else [])
  ++ (if 3 ≤ b.motors then
        [("3", "3ma"), ("3", "3sa"), ("3", "3tr"), ("3", "3mi"), ("3", "3po"), ("3", "3pm")]
        ++ (if b.arm then [("3", "3pl")] else [])
      else [])
  ++ (if 4 ≤ b.motors then
        [("4", "4ma"), ("4", "4sa"), ("4", "4tr"), ("4", "4mi"), ("4", "4po"), ("4", "4pm")]
        ++ (if b.arm then [("4", "4pl")] else [])
      else [])
  ++ (if 5 ≤ b.motors then
        [("5", "5ma"), ("5", "5sa"), ("5", "5tr"), ("5", "5mi"), ("5", "5po"), ("5", "5pm")]
        ++ (if b.arm then [("5", "5pl")] else [])
      else [])
  ++ (if 6 ≤ b.motors then
        [("6", "6ma"), ("6", "6sa"), ("6", "6tr"), ("6", "6mi"), ("6", "6po"), ("6", "6pm")]
        ++ (if b.arm then [("6", "6pl")] else [])
      else [])
  -- axis parameters; B and C extended parameters are ARM only
  ++ [("x", "xam"), ("x", "xvm"), ("x", "xfr"), ("x", "xtn"), ("x", "xtm"), ("x", "xjm"),
      ("x", "xjh"), ("x", "xjd"), ("x", "xhi"), ("x", "xhd"), ("x", "xsv"), ("x", "xlv"),
      ("x", "xlb"), ("x", "xzb")]
  ++ [("y", "yam"), ("y", "yvm"), ("y", "yfr"), ("y", "ytn"), ("y", "ytm"), ("y", "yjm"),
      ("y", "yjh"), ("y", "yjd"), ("y", "yhi"), ("y", "yhd"), ("y", "ysv"), ("y", "ylv"),
      ("y", "ylb"), ("y", "yzb")]
  ++ [("z", "zam"), ("z", "zvm"), ("z", "zfr"), ("z", "ztn"), ("z", "ztm"), ("z", "zjm"),
      ("z", "zjh"), ("z", "zjd"), ("z", "zhi"), ("z", "zhd"), ("z", "zsv"), ("z", "zlv"),
      ("z", "zlb"), ("z", "zzb")]
  ++ [("a", "aam"), ("a", "avm"), ("a", "afr"), ("a", "atn"), ("a", "atm"), ("a", "ajm"),
      ("a", "ajh"), ("a", "ajd"), ("a", "ara"), ("a", "ahi"), ("a", "ahd"), ("a", "asv"),
      ("a", "alv"), ("a", "alb"), ("a", "azb")]
  ++ ([("b", "bam"), ("b", "bvm"), ("b", "bfr"), ("b", "btn"), ("b", "btm"), ("b", "bjm"),
       ("b", "bjh"), ("b", "bra")]
      ++ (if b.arm then
            [("b", "bhi"), ("b", "bhd"), ("b", "bsv"), ("b", "blv"), ("b", "blb"), ("b", "bzb")]
          else []))
  ++ ([("c", "cam"), ("c", "cvm"), ("c", "cfr"), ("c", "ctn"), ("c", "ctm"), ("c", "cjm"),
       ("c", "cjh"), ("c", "cra")]
      ++ (if b.arm then
            [("c", "chi"), ("c", "chd"), ("c", "csv"), ("c", "clv"), ("c", "clb"), ("c", "czb")]
          else []))
  -- digital input configs
  ++ [("di1", "di1mo"), ("di1", "di1ac"), ("di1", "di1fn"),
      ("di2", "di2mo"), ("di2", "di2ac"), ("di2", "di2fn"),
      ("di3", "di3mo"), ("di3", "di3ac"), ("di3", "di3fn"),
      ("di4", "di4mo"), ("di4", "di4ac"), ("di4", "di4fn"),
      ("di5", "di5mo"), ("di5", "di5ac"), ("di5", "di5fn"),
      ("di6", "di6mo"), ("di6", "di6ac"), ("di6", "di6fn"),
      ("di7", "di7mo"), ("di7", "di7ac"), ("di7", "di7fn"),
      ("di8", "di8mo"), ("di8", "di8ac"), ("di8", "di8fn")]
  ++ (if 9 ≤ b.dInChannels then [("di9", "di9mo"), ("di9", "di9ac"), ("di9", "di9fn")] else [])
  -- digital input state readers
  ++ [("in", "in1"), ("in", "in2"), ("in", "in3"), ("in", "in4"), ("in", "in5"),
      ("in", "in6"), ("in", "in7"), ("in", "in8")]
  ++ (if 9 ≤ b.dInChannels then [("in", "in9")] else [])
  -- PWM settings
  ++ [("p1", "p1frq"), ("p1", "p1csl"), ("p1", "p1csh"), ("p1", "p1cpl"), ("p1", "p1cph"),
      ("p1", "p1wsl"), ("p1", "p1wsh"), ("p1", "p1wpl"), ("p1", "p1wph"), ("p1", "p1pof")]
  -- coordinate system offsets G54-G59 and G92
  ++ [("g54", "g54x"), ("g54", "g54y"), ("g54", "g54z"), ("g54", "g54a"), ("g54", "g54b"),
      ("g54", "g54c")]
  ++ [("g55", "g55x"), ("g55", "g55y"), ("g55", "g55z"), ("g55", "g55a"), ("g55", "g55b"),
      ("g55", "g55c")]
  ++ [("g56", "g56x"), ("g56", "g56y"), ("g56", "g56z"), ("g56", "g56a"), ("g56", "g56b"),
      ("g56", "g56c")]
  ++ [("g57", "g57x"), ("g57", "g57y"), ("g57", "g57z"), ("g57", "g57a"), ("g57", "g57b"),
      ("g57", "g57c")]
  ++ [("g58", "g58x"), ("g58", "g58y"), ("g58", "g58z"), ("g58", "g58a"), ("g58", "g58b"),
      ("g58", "g58c")]
  ++ [("g59", "g59x"), ("g59", "g59y"), ("g59", "g59z"), ("g59", "g59a"), ("g59", "g59b"),
      ("g59", "g59c")]
  ++ [("g92", "g92x"), ("g92", "g92y"), ("g92", "g92z"), ("g92", "g92a"), ("g92", "g92b"),
      ("g92", "g92c")]
  -- coordinate positions G28 and G30
  ++ [("g28", "g28x"), ("g28", "g28y"), ("g28", "g28z"), ("g28", "g28a"), ("g28", "g28b"),
      ("g28", "g28c")]
  ++ [("g30", "g30x"), ("g30", "g30y"), ("g30", "g30z"), ("g30", "g30a"), ("g30", "g30b"),
      ("g30", "g30c")]
  -- job ID
  ++ [("jid", "jida"), ("jid", "jidb"), ("jid", "jidc"), ("jid", "jidd")]
  -- general system parameters
  ++ [("sys", "ja"), ("sys", "ct"), ("sys", "sl"), ("sys", "lim"), ("sys", "saf"),
      ("sys", "mt"), ("sys", "m48e"), ("sys", "mfoe"), ("sys", "mfo"), ("sys", "mtoe"),
      ("sys", "mto")]
  -- spindle functions
  ++ [("sys", "spep"), ("sys", "spdp"), ("sys", "spph"), ("sys", "spdw"), ("sys", "ssoe"),
      ("sys", "sso"), ("", "spe"), ("", "spd"), ("", "sps")]
  -- coolant functions
  ++ [("sys", "cofp"), ("sys", "comp"), ("sys", "coph"), ("", "com"), ("", "cof")]
  -- communications and reporting parameters
  ++ (if b.textMode then [("sys", "tv")] else [])
  ++ [("sys", "ej"), ("sys", "jv"), ("sys", "js"), ("sys", "qv"), ("sys", "sv"),
      ("sys", "si")]
  ++ (if b.arm then [] else [("sys", "ec"), ("sys", "ee"), ("sys", "ex"), ("sys", "baud")])
  -- gcode defaults
  ++ [("sys", "gpl"), ("sys", "gun"), ("sys", "gco"), ("sys", "gpa"), ("sys", "gdi"),
      ("", "gc")]
  -- actions and reports
  ++ [("", "sr"), ("", "qr"), ("", "qi"), ("", "qo"), ("", "er"), ("", "qf"), ("", "rx"),
      ("", "msg"), ("", "alarm"), ("", "panic"), ("", "shutd"), ("", "clear"), ("", "clr"),
      ("", "tick"), ("", "me"), ("", "md"), ("", "test"), ("", "defa")]
  ++ (if b.arm then [("", "flash")] else [("", "boot")])
  ++ (if b.helpScreens then [("", "help"), ("", "h")] else [])
  -- user defined data groups
  ++ (if b.userData then
        [("uda", "uda0"), ("uda", "uda1"), ("uda", "uda2"), ("uda", "uda3"),
         ("udb", "udb0"), ("udb", "udb1"), ("udb", "udb2"), ("udb", "udb3"),
         ("udc", "udc0"), ("udc", "udc1"), ("udc", "udc2"), ("udc", "udc3"),
         ("udd", "udd0"), ("udd", "udd1"), ("udd", "udd2"), ("udd", "udd3")]
      else [])
  -- diagnostic parameters; note the _xs6/_xs5 token swap in the motor 5 and
  -- motor 6 blocks, reproduced from the source (config_app.cpp:670,678)
  ++ (if b.diagnostics then
        [("", "clc"), ("", "_dam")]
        ++ [("_te", "_tex"), ("_te", "_tey"), ("_te", "_tez"), ("_te", "_tea"),
            ("_te", "_teb"), ("_te", "_tec")]
        ++ [("_tr", "_trx"), ("_tr", "_try"), ("_tr", "_trz"), ("_tr", "_tra"),
            ("_tr", "_trb"), ("_tr", "_trc")]
        ++ (if 1 ≤ b.motors then
              [("_ts", "_ts1"), ("_ps", "_ps1"), ("_cs", "_cs1"), ("_es", "_es1"),
               ("_xs", "_xs1"), ("_fe", "_fe1")]
            else [])
        ++ (if 2 ≤ b.motors then
              [("_ts", "_ts2"), ("_ps", "_ps2"), ("_cs", "_cs2"), ("_es", "_es2"),
               ("_xs", "_xs2"), ("_fe", "_fe2")]
            else [])
        ++ (if 3 ≤ b.motors then
              [("_ts", "_ts3"), ("_ps", "_ps3"), ("_cs", "_cs3"), ("_es", "_es3"),
               ("_xs", "_xs3"), ("_fe", "_fe3")]
            else [])
        ++ (if 4 ≤ b.motors then
              [("_ts", "_ts4"), ("_ps", "_ps4"), ("_cs", "_cs4"), ("_es", "_es4"),
               ("_xs", "_xs4"), ("_fe", "_fe4")]
            else [])
        ++ (if 5 ≤ b.motors then
              [("_ts", "_ts5"), ("_ps", "_ps5"), ("_cs", "_cs5"), ("_es", "_es5"),
               ("_xs", "_xs6"), ("_fe", "_fe5")]
            else [])
        ++ (if 6 ≤ b.motors then
              [("_ts", "_ts6"), ("_ps", "_ps6"), ("_cs", "_cs6"), ("_es", "_es6"),
               ("_xs", "_xs5"), ("_fe", "_fe6")]
            else [])
      else [])

/-- The status-report persistence block of the table
(config_app.cpp:683-725): the 40 contiguous slots se00..se39. -/
def cfgArraySR : List (String × String) :=
  [("", "se00"), ("", "se01"), ("", "se02"), ("", "se03"), ("", "se04"),
      ("", "se05"), ("", "se06"), ("", "se07"), ("", "se08"), ("", "se09"),
      ("", "se10"), ("", "se11"), ("", "se12"), ("", "se13"), ("", "se14"),
      ("", "se15"), ("", "se16"), ("", "se17"), ("", "se18"), ("", "se19"),
      ("", "se20"), ("", "se21"), ("", "se22"), ("", "se23"), ("", "se24"),
      ("", "se25"), ("", "se26"), ("", "se27"), ("", "se28"), ("", "se29"),
      ("", "se30"), ("", "se31"), ("", "se32"), ("", "se33"), ("", "se34"),
      ("", "se35"), ("", "se36"), ("", "se37"), ("", "se38"), ("", "se39")]

/-- The group-marker region of the table (config_app.cpp:727-803). -/
def cfgArrayGroups (b : Build) : List (String × String) :=
  [("", "sys"), ("", "p1")]
  ++ [("", "1"), ("", "2"), ("", "3"), ("", "4")]
  ++ (if 5 ≤ b.motors then [("", "5")] else [])
  ++ (if 6 ≤ b.motors then [("", "6")] else [])
  ++ [("", "x"), ("", "y"), ("", "z"), ("", "a"), ("", "b"), ("", "c")]
  ++ [("", "in"), ("", "di1"), ("", "di2"), ("", "di3"), ("", "di4"), ("", "di5"),
      ("", "di6"), ("", "di7"), ("", "di8"), ("", "di9")]
  ++ [("", "g54"), ("", "g55"), ("", "g56"), ("", "g57"), ("", "g58"), ("", "g59"),
      ("", "g92"), ("", "g28"), ("", "g30")]
  ++ [("", "mpo"), ("", "pos"), ("", "ofs"), ("", "hom"), ("", "prb"), ("", "pwr"),
      ("", "jog"), ("", "jid")]
  ++ (if b.userData then [("", "uda"), ("", "udb"), ("", "udc"), ("", "udd")] else [])
  ++ (if b.diagnostics then
        [("", "_te"), ("", "_tr"), ("", "_ts"), ("", "_ps"), ("", "_cs"), ("", "_es"),
         ("", "_xs"), ("", "_fe")]
      else [])

/-- The uber-group region of the table (config_app.cpp:805-811). -/
def cfgArrayUberGroups : List (String × String) :=
  [("", "m"), ("", "q"), ("", "o"), ("", "di"), ("", "$")]

/-- The full `cfgArray` table (config_app.cpp:116-812): the single-valued
entries, then the status-report persistence block, then the group markers,
then the uber-groups, exactly in source order. -/
def cfgArray (b : Build) : List (String × String) :=
  cfgArraySingles b ++ cfgArraySR ++ cfgArrayGroups b ++ cfgArrayUberGroups

/-- `NV_COUNT_UBER_GROUPS` (config_app.cpp:816). -/
def NV_COUNT_UBER_GROUPS : Nat := 5

/-- `FIXED_GROUPS` (config_app.cpp:817). -/
def FIXED_GROUPS : Nat := 39

/-- `MOTOR_GROUP_5` (config_app.cpp:819-823). -/
def MOTOR_GROUP_5 (b : Build) : Nat := if 5 ≤ b.motors then 1 else 0

/-- `MOTOR_GROUP_6` (config_app.cpp:825-829). -/
def MOTOR_GROUP_6 (b : Build) : Nat := if 6 ≤ b.motors then 1 else 0

/-- `USER_DATA_GROUPS` (config_app.cpp:831-835). -/
def USER_DATA_GROUPS (b : Build) : Nat := if b.userData then 4 else 0

/-- `DIAGNOSTIC_GROUPS` (config_app.cpp:837-841). -/
def DIAGNOSTIC_GROUPS (b : Build) : Nat := if b.diagnostics then 8 else 0

/-- `NV_COUNT_GROUPS` (config_app.cpp:842). -/
def NV_COUNT_GROUPS (b : Build) : Nat :=
  FIXED_GROUPS + MOTOR_GROUP_5 b + MOTOR_GROUP_6 b + USER_DATA_GROUPS b + DIAGNOSTIC_GROUPS b

/-- Modelled from the spec: `NV_STATUS_REPORT_LEN` is declared in report.h,
which is not under src; the table comments (config_app.cpp:684,725) require
it to equal the 40 status-report persistence slots se00..se39. -/
def NV_STATUS_REPORT_LEN : Nat := 40

/-- `NV_INDEX_MAX` (config_app.cpp:845): the element count of `cfgArray`. -/
def NV_INDEX_MAX (b : Build) : Nat := (cfgArray b).length

/-- `NV_INDEX_END_SINGLES` (config_app.cpp:846). -/
def NV_INDEX_END_SINGLES (b : Build) : Nat :=
  NV_INDEX_MAX b - NV_COUNT_UBER_GROUPS - NV_COUNT_GROUPS b - NV_STATUS_REPORT_LEN

/-- `NV_INDEX_START_GROUPS` (config_app.cpp:847). -/
def NV_INDEX_START_GROUPS (b : Build) : Nat :=
  NV_INDEX_MAX b - NV_COUNT_UBER_GROUPS - NV_COUNT_GROUPS b

/-- `NV_INDEX_START_UBER_GROUPS` (config_app.cpp:848). -/
def NV_INDEX_START_UBER_GROUPS (b : Build) : Nat :=
  NV_INDEX_MAX b - NV_COUNT_UBER_GROUPS

/-- `nv_index_max()` (config_app.cpp:851). -/
def nv_index_max (b : Build) : Nat := NV_INDEX_MAX b

/-- `nv_index_is_single()` (config_app.cpp:852): note the `<=` comparison. -/
def nv_index_is_single (b : Build) (index : Nat) : Bool :=
  decide (index ≤ NV_INDEX_END_SINGLES b)

/-- `nv_index_is_group()` (config_app.cpp:853). -/
def nv_index_is_group (b : Build) (index : Nat) : Bool :=
  decide (NV_INDEX_START_GROUPS b ≤ index ∧ index < NV_INDEX_START_UBER_GROUPS b)

/-- `nv_index_lt_groups()` (config_app.cpp:854). -/
def nv_index_lt_groups (b : Build) (index : Nat) : Bool :=
  decide (index ≤ NV_INDEX_START_GROUPS b)

/-- The event trace `_do_group_list` produces on the axes token list when
the sentinel is reached: six iterations, each a reset followed by the
fetch-and-render of one axis group. -/
def axesTrace : List Ev :=
  [Ev.reset, Ev.render "x", Ev.reset, Ev.render "y", Ev.reset, Ev.render "z",
   Ev.reset, Ev.render "a", Ev.reset, Ev.render "b", Ev.reset, Ev.render "c"]

/-- A representative full ARM build: six motors, nine input channels, user
data, diagnostics, text mode and help screens all compiled in. -/
def buildRef : Build :=
  { motors := 6, dInChannels := 9, userData := true, diagnostics := true,
    textMode := true, arm := true, helpScreens := true }

/-- An ARM build with four motors and the optional user-data and diagnostic
sections off, used to isolate the effect of the motor count. -/
def buildM4 : Build :=
  { motors := 4, dInChannels := 9, userData := false, diagnostics := false,
    textMode := true, arm := true, helpScreens := false }

/-- The same build as `buildM4` with the motor count raised to six. -/
def buildM6 : Build := { buildM4 with motors := 6 }

/-- Helper: the group-marker region of the table has exactly
`NV_COUNT_GROUPS` entries, for every build configuration - the invariant
the source states as "Must agree with NV_COUNT_GROUPS below". -/
theorem cfgArrayGroups_length (b : Build) :
    (cfgArrayGroups b).length = NV_COUNT_GROUPS b := by
  simp only [cfgArrayGroups, NV_COUNT_GROUPS, FIXED_GROUPS, MOTOR_GROUP_5, MOTOR_GROUP_6,
    USER_DATA_GROUPS, DIAGNOSTIC_GROUPS, List.length_append, apply_ite List.length]
  split_ifs <;> rfl

/-- Helper: the uber-group, group and status-report regions always fit
inside the table, for every build configuration. -/
theorem nv_count_le_index_max (b : Build) :
    NV_COUNT_UBER_GROUPS + NV_COUNT_GROUPS b + NV_STATUS_REPORT_LEN ≤ NV_INDEX_MAX b := by
  have hg := cfgArrayGroups_length b
  have hsr : cfgArraySR.length = 40 := rfl
  have hu : cfgArrayUberGroups.length = 5 := rfl
  simp only [NV_COUNT_UBER_GROUPS, NV_STATUS_REPORT_LEN, NV_INDEX_MAX, cfgArray,
    List.length_append]
  omega

/-- C1 counterexample: at a four-motor build, `_do_all` does not render the
groups in the claimed order "sys", "p1", then motors, axes and offsets: it
renders "p1" only after the motors and axes uber-groups. -/
theorem do_all_order_counterexample :
    renderedGroups (_do_all 4 30) ≠ some (do_all_spec_order 4) := by decide

/-- C1 (amended): for every configured motor count 2..6 and every loop bound
of at least 10, `_do_all` renders the "sys" group directly, then the motor
groups, then the axis groups, then the "p1" group directly, then the offset
groups, and no group is rendered twice. -/
theorem do_all_render_order (f m : Nat) (h2 : 2 ≤ m) (h6 : m ≤ 6) :
    renderedGroups (_do_all m (f + 10)) = some (allGroupsRendered m)
    ∧ (allGroupsRendered m).Nodup := by
  interval_cases m <;> exact ⟨rfl, by decide⟩

/-- Witness for `do_all_render_order` at six motors and loop bound 30. -/
theorem do_all_render_order_witness :
    renderedGroups (_do_all 6 30) = some (allGroupsRendered 6)
    ∧ (allGroupsRendered 6).Nodup :=
  do_all_render_order 20 6 (by decide) (by decide)

/-- C2 counterexample: in the reference build, index 418 (the slot of the
status-report entry "se01") is in range but is classified neither as a
single item, nor as a group marker, nor as an uber-group marker. -/
theorem nv_index_gap_counterexample :
    418 < nv_index_max buildRef
    ∧ nv_index_is_single buildRef 418 = false
    ∧ nv_index_is_group buildRef 418 = false
    ∧ ¬(NV_INDEX_START_UBER_GROUPS buildRef ≤ 418) := by decide

/-- C2 (amended): for every build and every in-range index, at most one of
the three classifications holds, and exactly one holds if and only if the
index is not strictly between the end-of-singles boundary and the start of
the group markers (that strip is the status-report persistence block minus
its first slot, which the `<=` in `nv_index_is_single` still accepts). -/
theorem nv_index_partition_amended (b : Build) (index : Nat)
    (hin : index < nv_index_max b) :
    (¬(nv_index_is_single b index = true ∧ nv_index_is_group b index = true))
    ∧ (¬(nv_index_is_single b index = true ∧ NV_INDEX_START_UBER_GROUPS b ≤ index))
    ∧ (¬(nv_index_is_group b index = true ∧ NV_INDEX_START_UBER_GROUPS b ≤ index))
    ∧ ((nv_index_is_single b index = true ∨ nv_index_is_group b index = true ∨
          NV_INDEX_START_UBER_GROUPS b ≤ index)
        ↔ ¬(NV_INDEX_END_SINGLES b < index ∧ index < NV_INDEX_START_GROUPS b)) := by
  have hb := nv_count_le_index_max b
  simp only [nv_index_max, nv_index_is_single, nv_index_is_group, NV_INDEX_END_SINGLES,
    NV_INDEX_START_GROUPS, NV_INDEX_START_UBER_GROUPS, NV_COUNT_UBER_GROUPS,
    NV_STATUS_REPORT_LEN, decide_eq_true_eq] at *
  omega

/-- Witness for `nv_index_partition_amended` at the reference build and
index 417 (the first status-report slot). -/
theorem nv_index_partition_amended_witness :
    ¬(nv_index_is_single buildRef 417 = true ∧ nv_index_is_group buildRef 417 = true) :=
  (nv_index_partition_amended buildRef 417 (by decide)).1

/-- C3 counterexample: raising the motor count from 4 to 6 (all other
switches fixed) moves the end-of-singles boundary, which the claim says is
unaffected by the motor count. -/
theorem motor_count_shifts_end_singles :
    NV_INDEX_END_SINGLES buildM4 ≠ NV_INDEX_END_SINGLES buildM6 := by decide

/-- C3 (amended): raising the motor count from 4 to 6 changes the motors
uber-group member list and raises `NV_COUNT_GROUPS` by 2, but it also grows
the table by 16 entries and therefore shifts every derived index boundary:
end-of-singles and start-of-groups by 14 and start-of-uber-groups by 16.
The uber-group count and the status-report length are unaffected. -/
theorem motor_count_effect_amended :
    motorsList 4 ≠ motorsList 6
    ∧ NV_COUNT_GROUPS buildM4 + 2 = NV_COUNT_GROUPS buildM6
    ∧ NV_INDEX_MAX buildM4 + 16 = NV_INDEX_MAX buildM6
    ∧ NV_INDEX_END_SINGLES buildM4 + 14 = NV_INDEX_END_SINGLES buildM6
    ∧ NV_INDEX_START_GROUPS buildM4 + 14 = NV_INDEX_START_GROUPS buildM6
    ∧ NV_INDEX_START_UBER_GROUPS buildM4 + 16 = NV_INDEX_START_UBER_GROUPS buildM6
    ∧ NV_COUNT_UBER_GROUPS = 5
    ∧ NV_STATUS_REPORT_LEN = 40 := by decide

/-- C4: `set_flu` in inches mode writes the input value times 25.4 both to
backing storage and back into the object's value field (so a finite input
of 1.0 yields 25.4 in both places), in millimeters mode it writes the value
unchanged, and in every mode it sets the object's precision from the table
word, tags the value as a float, and returns `STAT_OK`. -/
theorem set_flu_units_conversion (tablePrecision : Nat) (nv : NvObj) :
    (set_flu UnitsMode.inches tablePrecision nv).2.2 = nv.value.mulPos MM_PER_INCH
    ∧ (set_flu UnitsMode.inches tablePrecision nv).2.1.value = nv.value.mulPos MM_PER_INCH
    ∧ (FloatVal.finite 1).mulPos MM_PER_INCH = FloatVal.finite (254 / 10)
    ∧ (set_flu UnitsMode.millimeters tablePrecision nv).2.2 = nv.value
    ∧ (set_flu UnitsMode.millimeters tablePrecision nv).2.1.value = nv.value
    ∧ (∀ units, (set_flu units tablePrecision nv).1 = Stat.ok
        ∧ (set_flu units tablePrecision nv).2.1.precision = tablePrecision
        ∧ (set_flu units tablePrecision nv).2.1.valuetype = ValueType.typeFloat) := by
  refine ⟨rfl, rfl, ?_, rfl, rfl, fun units => ⟨rfl, rfl, rfl⟩⟩
  norm_num [FloatVal.mulPos, MM_PER_INCH]

/-- C5: the group expansion engine run by `_do_axes` performs, for every
loop bound of at least 7, exactly six fetch-and-render iterations, each
preceded by a reset of the Transient Value Object list, and returns
`STAT_COMPLETE` on reaching the empty-string sentinel; moreover every
defined run of `_do_group_list` returns `STAT_COMPLETE` - in particular
exhausting the loop bound before a sentinel is not reported as an error. -/
theorem do_group_list_axes_complete :
    (∀ f, _do_axes (f + 7) = some (axesTrace, Stat.complete))
    ∧ (∀ fuel list r, _do_group_list fuel list = some r → r.2 = Stat.complete) := by
  constructor
  · intro f
    rfl
  · intro fuel
    induction fuel with
    | zero =>
      intro list r h
      have h0 : _do_group_list 0 list = some ([], Stat.complete) := rfl
      rw [h0] at h
      rw [← Option.some.inj h]
    | succ f ih =>
      intro list r h
      match list with
      | [] => simp [_do_group_list] at h
      | tok :: rest =>
        simp only [_do_group_list] at h
        by_cases htok : tok = ""
        · rw [if_pos htok] at h
          rw [← Option.some.inj h]
        · rw [if_neg htok] at h
          cases hrec : _do_group_list f rest with
          | none => rw [hrec] at h; exact absurd h (by simp)
          | some p =>
            obtain ⟨tr, s⟩ := p
            rw [hrec] at h
            rw [← Option.some.inj h]
            exact ih rest (tr, s) hrec

/-- Witness for `do_group_list_axes_complete`: a truncated run with loop
bound 3 on the axes list stops after three groups and still reports
`STAT_COMPLETE`. -/
theorem do_group_list_axes_complete_witness :
    (([Ev.reset, Ev.render "x", Ev.reset, Ev.render "y", Ev.reset, Ev.render "z"],
      Stat.complete) : List Ev × Stat).2 = Stat.complete :=
  do_group_list_axes_complete.2 3 axesList
    ([Ev.reset, Ev.render "x", Ev.reset, Ev.render "y", Ev.reset, Ev.render "z"],
      Stat.complete)
    (by decide)

/-- C6: `preprocess_float` on a NaN or infinite value returns with the
whole state unchanged, for every unit mode and every setting of the
descriptor's conversion flag. -/
theorem preprocess_float_illegal_passthrough (fConvert : Bool) (units : UnitsMode)
    (nv : NvObj) (target : FloatVal) (h : nv.value.isIllegal = true) :
    preprocess_float fConvert units nv target = (nv, target) := by
  simp [preprocess_float, h]

/-- Witness for `preprocess_float_illegal_passthrough` at a NaN value with
the conversion flag set and inches mode active. -/
theorem preprocess_float_illegal_passthrough_witness :
    preprocess_float true UnitsMode.inches
      { token := "xtm", value := FloatVal.nan, valuetype := ValueType.typeFloat, precision := 3 }
      (FloatVal.finite 5)
    = ({ token := "xtm", value := FloatVal.nan, valuetype := ValueType.typeFloat,
         precision := 3 }, FloatVal.finite 5) :=
  preprocess_float_illegal_passthrough true UnitsMode.inches _ _ rfl

/-- C7: `preprocess_float` never writes the descriptor's backing storage:
the target cell after the call equals the target cell before it, for every
input. -/
theorem preprocess_float_frame (fConvert : Bool) (units : UnitsMode) (nv : NvObj)
    (target : FloatVal) :
    (preprocess_float fConvert units nv target).2 = target := by
  unfold preprocess_float
  split_ifs <;> rfl

/-- C8: `nv_group_is_prefixed` returns false exactly for "sr" and "sys" and
true for every other group name string. -/
theorem nv_group_is_prefixed_spec :
    nv_group_is_prefixed "sr" = false
    ∧ nv_group_is_prefixed "sys" = false
    ∧ ∀ g, g ≠ "sr" → g ≠ "sys" → nv_group_is_prefixed g = true := by
  refine ⟨rfl, rfl, fun g h1 h2 => ?_⟩
  simp [nv_group_is_prefixed, h1, h2]

/-- Witness for `nv_group_is_prefixed_spec` at the group name "g54". -/
theorem nv_group_is_prefixed_spec_witness : nv_group_is_prefixed "g54" = true :=
  nv_group_is_prefixed_spec.2.2 "g54" (by decide) (by decide)

/-- C9: `set_baud` on a truncated byte outside 1..6 returns
`STAT_INPUT_VALUE_UNSUPPORTED`, queues the warning message, and leaves the
xio baud-rate state untouched. -/
theorem set_baud_rejects_out_of_range (baud : Nat) (xio : XioState)
    (messages : List String) (hbyte : baud < 256) (h : baud < 1 ∨ 6 < baud) :
    (set_baud baud xio messages).1 = Stat.inputValueUnsupported
    ∧ (set_baud baud xio messages).2.1 = xio
    ∧ (set_baud baud xio messages).2.2 = messages ++ [baudWarning] := by
  unfold set_baud
  rw [if_pos h]
  exact ⟨rfl, rfl, rfl⟩

/-- Witness for `set_baud_rejects_out_of_range` at byte 7. -/
theorem set_baud_rejects_out_of_range_witness :
    (set_baud 7 { usb_baud_rate := 5, usb_baud_flag := false } []).1
        = Stat.inputValueUnsupported
    ∧ (set_baud 7 { usb_baud_rate := 5, usb_baud_flag := false } []).2.1
        = { usb_baud_rate := 5, usb_baud_flag := false }
    ∧ (set_baud 7 { usb_baud_rate := 5, usb_baud_flag := false } []).2.2
        = [] ++ [baudWarning] :=
  set_baud_rejects_out_of_range 7 _ _ (by decide) (by decide)

/-- C10: `set_flu` never fails: for every unit mode, table precision and
input value - finite of any sign, NaN or infinite - it returns `STAT_OK`. -/
theorem set_flu_always_ok (units : UnitsMode) (tablePrecision : Nat) (nv : NvObj) :
    (set_flu units tablePrecision nv).1 = Stat.ok := rfl
